import Mathlib

/-!
Shallow embedding of `src/advanced-types/src/app.ts`, the shape-dispatch
demo module: the union-type narrowing functions `add`,
`printEmployeeInformation`, `operateVehicle`, `moveFauna`, `addCombinable`
and the record shapes they operate on.

Modelling conventions:
- JS numbers appearing here are integers; they are modelled as `Int`
  (all arithmetic in the file is integer addition, far from overflow).
- A JS string is `String`; `x.toString()` on a `string | number` value is
  `Combinable.toStr`.
- `console.log` is modelled by explicit state passing: each dispatch
  function takes the list of lines printed so far and returns the new
  list together with the (un-mutated) input record, so that statelessness
  and absence of mutation are statable.
- A possibly-absent JS property (or an unassigned `let` variable of type
  `number`) is an `Option`; interpolating it into a template literal
  renders `none` as `"undefined"`, as JS does.
- A `Date` value is opaque here; it is modelled by its string rendering.
-/

namespace AdvancedTypes

/-- The TS union `type Combinable = string | number` (app.ts line 31). -/
inductive Combinable where
  | str : String → Combinable
  | num : Int → Combinable
deriving DecidableEq, Repr

/-- The runtime test `typeof x === 'string'` on a `Combinable` value. -/
def Combinable.isStr : Combinable → Bool
  | .str _ => true
  | .num _ => false

/-- JS `x.toString()` on a `string | number` value: a string is itself,
a number renders in decimal. -/
def Combinable.toStr : Combinable → String
  | .str s => s
  | .num n => toString n

/-- The function `add` (app.ts lines 44-49): if
`typeof a === 'string' || typeof b === 'string'` it returns
`a.toString() + b.toString()`, otherwise (both operands are numbers,
the only other shape a `Combinable` can have) it returns `a + b`. -/
def add : Combinable → Combinable → Combinable
  | Combinable.num x, Combinable.num y => Combinable.num (x + y)
  | a, b => Combinable.str (a.toStr ++ b.toStr)

/-- The implementation body of `addCombinable` (app.ts lines 205-210).
Its source text is the same guard and the same two returns as `add`;
the overload signatures above it (lines 200-203) exist only for the
static type checker and have no runtime counterpart. -/
def addCombinable : Combinable → Combinable → Combinable
  | Combinable.num x, Combinable.num y => Combinable.num (x + y)
  | a, b => Combinable.str (a.toStr ++ b.toStr)

/-- Character-list core of JS `String.prototype.split` with a one-character
separator: the character sequence is divided at every occurrence of the
separator character (so `"a b"` splits into `"a"` and `"b"`, and adjacent
separators produce empty pieces, exactly as in JS). -/
def jsSplitChar (sep : Char) : List Char → List (List Char)
  | [] => [[]]
  | c :: rest =>
    if c = sep then [] :: jsSplitChar sep rest
    else
      match jsSplitChar sep rest with
      | [] => [[c]]
      | piece :: pieces => (c :: piece) :: pieces

/-- JS `s.split(sep)` for a one-character separator string, as used at
app.ts line 214 (`result.split(' ')`). -/
def jsSplit (s : String) (sep : Char) : List String :=
  (jsSplitChar sep s.data).map fun cs => String.mk cs

/-- The script value `const result = addCombinable('Ashutosh', ' Bhadoria')`
(app.ts line 212). -/
def result : Combinable :=
  addCombinable (Combinable.str "Ashutosh") (Combinable.str " Bhadoria")

/-- The destructured `const [first, last] = result.split(' ')`
(app.ts line 214), as the full list produced by the split. -/
def firstLast : List String := jsSplit result.toStr ' '

/-- One `console.log(line)` call: appends one line to the console. -/
def consoleLog (st : List String) (line : String) : List String := st ++ [line]

/-- A JS `Date` value, opaque for this module: only its template-literal
rendering is ever used (app.ts line 63), so the model carries exactly
that rendering. -/
structure JsDate where
  rendering : String
deriving DecidableEq, Repr

/-- A runtime value of the TS union `type UnknownEmployee = Employee | Admin`
(app.ts line 56).  Both interface arms carry `name`; `startDate` is present
exactly on the `Employee` arm and `privileges` exactly on the `Admin` arm,
and a value of the intersection `ElevatedEmployee` carries both.  Presence
of a property is an `Option` being `some`. -/
structure UnknownEmployee where
  name : String
  startDate : Option JsDate
  privileges : Option (List String)
deriving DecidableEq, Repr

/-- JS template-literal rendering of a string array (`${emp.privileges}`
at app.ts line 67): elements joined by commas. -/
def jsArrayToString (l : List String) : String := String.intercalate "," l

/-- The function `printEmployeeInformation` (app.ts lines 58-69), with the
console threaded explicitly.  It logs the header and the name, then logs
the start-date line under the `'startDate' in emp` property-presence test
and the privileges line under the `'privileges' in emp` test, and returns
the console together with the (unchanged) input record. -/
def printEmployeeInformationRun (st : List String) (emp : UnknownEmployee) :
    List String × UnknownEmployee :=
  let st := consoleLog st "EMPLOYEE DETAILS:"
  let st := consoleLog st ("Name: " ++ emp.name)
  let st :=
    match emp.startDate with
    | some d => consoleLog st ("Start Date: " ++ d.rendering)
    | none => st
  let st :=
    match emp.privileges with
    | some ps => consoleLog st ("Privileges: " ++ jsArrayToString ps)
    | none => st
  (st, emp)

/-- The console lines printed by one `printEmployeeInformation` call
starting from an empty console. -/
def printEmployeeInformation (emp : UnknownEmployee) : List String :=
  (printEmployeeInformationRun [] emp).1

/-- A runtime value of the TS union `type Vehicle = Car | Truck`
(app.ts line 92).  The two classes have no fields, so a vehicle is just
its concrete class identity; `instanceof Truck` is equality with `truck`. -/
inductive Vehicle where
  | car : Vehicle
  | truck : Vehicle
deriving DecidableEq, Repr

/-- The line printed by `vehicle.drive()`: `Car.drive` logs `'vroom'`
(app.ts line 78), `Truck.drive` logs `'VROOM'` (app.ts line 84). -/
def Vehicle.driveLine : Vehicle → String
  | .car => "vroom"
  | .truck => "VROOM"

/-- The line printed by `Truck.loadCargo(weight)` (app.ts line 88),
with the source's `cardo` typo kept. -/
def loadCargoLine (weight : Int) : String :=
  "Loading cardo : " ++ toString weight ++ " kg(s)"

/-- A method invocation performed by `operateVehicle` on its argument. -/
inductive VehicleEvent where
  | driveCall : VehicleEvent
  | loadCargoCall : Int → VehicleEvent
deriving DecidableEq, Repr

/-- The method invocations `operateVehicle` (app.ts lines 94-102) performs:
it always calls `vehichle.drive()` and, when `vehichle instanceof Truck`,
additionally calls `vehichle.loadCargo(420)`. -/
def operateVehicleCalls (v : Vehicle) : List VehicleEvent :=
  [VehicleEvent.driveCall] ++
    (if v = Vehicle.truck then [VehicleEvent.loadCargoCall 420] else [])

/-- The function `operateVehicle` (app.ts lines 94-102), with the console
threaded explicitly: logs `'Operating vehicle...'`, invokes `drive()`
(which logs its line), and when the argument `instanceof Truck` invokes
`loadCargo(420)` (which logs its line); returns the console together with
the (unchanged) input. -/
def operateVehicleRun (st : List String) (v : Vehicle) :
    List String × Vehicle :=
  let st := consoleLog st "Operating vehicle..."
  let st := consoleLog st v.driveLine
  let st := if v = Vehicle.truck then consoleLog st (loadCargoLine 420) else st
  (st, v)

/-- The console lines printed by one `operateVehicle` call starting from
an empty console. -/
def operateVehicle (v : Vehicle) : List String := (operateVehicleRun [] v).1

/-- A runtime record passed to `moveFauna`: a `type` discriminant string
and the two possibly-absent numeric speed properties.  A well-typed
`Animal` has `type = "animal"` and only `runningSpeed`; a well-typed
`Bird` has `type = "bird"` and only `flyingSpeed`; the raw record shape
also covers discriminant values outside the union (app.ts lines 117-127). -/
structure FaunaRec where
  type : String
  runningSpeed : Option Int
  flyingSpeed : Option Int
deriving DecidableEq, Repr

/-- JS template-literal rendering of a `number` variable that may still be
`undefined`: an unassigned variable renders as `"undefined"`. -/
def jsShowOptInt : Option Int → String
  | none => "undefined"
  | some n => toString n

/-- The value of the local `let speed: number;` after the `switch` on
`fauna.type` (app.ts lines 130-139): the `'animal'` case assigns
`fauna.runningSpeed`, the `'bird'` case assigns `fauna.flyingSpeed`, and
any other discriminant falls through every case, leaving `speed`
unassigned (`none`). -/
def moveFaunaSpeed (fauna : FaunaRec) : Option Int :=
  if fauna.type = "animal" then fauna.runningSpeed
  else if fauna.type = "bird" then fauna.flyingSpeed
  else none

/-- The function `moveFauna` (app.ts lines 129-142), with the console
threaded explicitly: runs the `switch` to obtain `speed`, then logs
`` `The speed of the fauna is ${speed}` ``; returns the console together
with the (unchanged) input record. -/
def moveFaunaRun (st : List String) (fauna : FaunaRec) :
    List String × FaunaRec :=
  let speed := moveFaunaSpeed fauna
  (consoleLog st ("The speed of the fauna is " ++ jsShowOptInt speed), fauna)

/-- The console lines printed by one `moveFauna` call starting from an
empty console. -/
def moveFauna (fauna : FaunaRec) : List String := (moveFaunaRun [] fauna).1

/-- The declared (well-typed) domain of `moveFauna`: the closed TS union
`type Fauna = Animal | Bird` (app.ts line 127). -/
inductive Fauna where
  | animal : Int → Fauna
  | bird : Int → Fauna
deriving DecidableEq, Repr

/-- The runtime record a well-typed `Fauna` value is: an `Animal` literal
carries `type: 'animal'` and `runningSpeed`; a `Bird` literal carries
`type: 'bird'` and `flyingSpeed` (app.ts lines 144-152). -/
def Fauna.toRec : Fauna → FaunaRec
  | .animal n => { type := "animal", runningSpeed := some n, flyingSpeed := none }
  | .bird n => { type := "bird", runningSpeed := none, flyingSpeed := some n }

/-- The script constant `horse` (app.ts lines 144-147). -/
def horse : FaunaRec :=
  { type := "animal", runningSpeed := some 20, flyingSpeed := none }

/-- The script constant `sparrow` (app.ts lines 149-152). -/
def sparrow : FaunaRec :=
  { type := "bird", runningSpeed := none, flyingSpeed := some 10 }

/-- Whether the string `l` begins with the string `tag` (character-wise). -/
def startsWithTag (l tag : String) : Bool := List.isPrefixOf tag.data l.data

/-- Whether some already-printed console line begins with `tag`. -/
def hasTaggedLine (out : List String) (tag : String) : Bool :=
  out.any fun l => startsWithTag l tag

/-- Calling `add` does not touch the console: with the console threaded
explicitly, the call leaves it unchanged and produces the value. -/
def addRun (st : List String) (a b : Combinable) : List String × Combinable :=
  (st, add a b)

/-- Calling `addCombinable` does not touch the console either. -/
def addCombinableRun (st : List String) (a b : Combinable) :
    List String × Combinable :=
  (st, addCombinable a b)

end AdvancedTypes

namespace AdvancedTypes

/-! ### Helper lemmas (shared) -/

/-- A tag cannot begin a string whose first character differs from the
tag's first character. -/
theorem startsWithTag_ne_head (l tag : String) (c d : Char)
    (cs ds : List Char) (hl : l.data = c :: cs) (ht : tag.data = d :: ds)
    (h : d ≠ c) : startsWithTag l tag = false := by
  simp [startsWithTag, hl, ht, List.isPrefixOf, h]

/-- A string does begin with any literal prefix it is built from. -/
theorem startsWithTag_append_self (p s : String) :
    startsWithTag (p ++ s) p = true := by
  have hdata : (p ++ s).data = p.data ++ s.data := rfl
  simp [startsWithTag, hdata, List.isPrefixOf_iff_prefix]

theorem header_not_startDate :
    startsWithTag "EMPLOYEE DETAILS:" "Start Date: " = false := by decide

theorem header_not_privileges :
    startsWithTag "EMPLOYEE DETAILS:" "Privileges: " = false := by decide

theorem nameLine_not_startDate (s : String) :
    startsWithTag ("Name: " ++ s) "Start Date: " = false :=
  startsWithTag_ne_head _ _ 'N' 'S' _ _ rfl rfl (by decide)

theorem nameLine_not_privileges (s : String) :
    startsWithTag ("Name: " ++ s) "Privileges: " = false :=
  startsWithTag_ne_head _ _ 'N' 'P' _ _ rfl rfl (by decide)

theorem privLine_not_startDate (s : String) :
    startsWithTag ("Privileges: " ++ s) "Start Date: " = false :=
  startsWithTag_ne_head _ _ 'P' 'S' _ _ rfl rfl (by decide)

theorem startLine_not_privileges (s : String) :
    startsWithTag ("Start Date: " ++ s) "Privileges: " = false :=
  startsWithTag_ne_head _ _ 'S' 'P' _ _ rfl rfl (by decide)

/-- Running `printEmployeeInformation` on any console appends exactly the
lines it prints on the empty console. -/
theorem printEmployeeInformationRun_fst (st : List String)
    (e : UnknownEmployee) :
    (printEmployeeInformationRun st e).1 = st ++ printEmployeeInformation e := by
  obtain ⟨nm, sd, pv⟩ := e
  cases sd <;> cases pv <;>
    simp [printEmployeeInformationRun, printEmployeeInformation, consoleLog]

/-- Running `operateVehicle` on any console appends exactly the lines it
prints on the empty console. -/
theorem operateVehicleRun_fst (st : List String) (v : Vehicle) :
    (operateVehicleRun st v).1 = st ++ operateVehicle v := by
  cases v <;> simp [operateVehicleRun, operateVehicle, consoleLog]

/-- Running `moveFauna` on any console appends exactly the line it prints
on the empty console. -/
theorem moveFaunaRun_fst (st : List String) (f : FaunaRec) :
    (moveFaunaRun st f).1 = st ++ moveFauna f := by
  simp [moveFaunaRun, moveFauna, consoleLog]

end AdvancedTypes

namespace AdvancedTypes

/-! ### Claim theorems -/

/-- C1: for every pair of `Combinable` inputs, `add` returns the string
concatenation of the `toString` conversions whenever at least one input
is a string, and the numeric sum when both are numbers; in particular
`add("1","2") = "12"`, `add(1,"2") = "12"` and `add(1,2) = 3`. -/
theorem add_typeof_dispatch :
    (∀ a b : Combinable, (a.isStr = true ∨ b.isStr = true) →
        add a b = Combinable.str (a.toStr ++ b.toStr))
    ∧ (∀ x y : Int, add (Combinable.num x) (Combinable.num y)
        = Combinable.num (x + y))
    ∧ add (Combinable.str "1") (Combinable.str "2") = Combinable.str "12"
    ∧ add (Combinable.num 1) (Combinable.str "2") = Combinable.str "12"
    ∧ add (Combinable.num 1) (Combinable.num 2) = Combinable.num 3 := by
  refine ⟨?_, fun x y => rfl, by decide, by decide, by decide⟩
  intro a b h
  cases a <;> cases b <;> simp [Combinable.isStr] at h <;> rfl

/-- Witness for C1: the string-operand hypothesis holds at `(1, "2")` and
there `add` concatenates the conversions. -/
theorem add_typeof_dispatch_witness :
    ((Combinable.num 1).isStr = true ∨ (Combinable.str "2").isStr = true)
    ∧ add (Combinable.num 1) (Combinable.str "2")
        = Combinable.str ((Combinable.num 1).toStr ++ (Combinable.str "2").toStr) :=
  ⟨Or.inr rfl,
    add_typeof_dispatch.1 (Combinable.num 1) (Combinable.str "2") (Or.inr rfl)⟩

/-- C2 counterexample: splitting
`addCombinable("Ashutosh", " Bhadoria") = "Ashutosh Bhadoria"` on the
space delimiter does NOT return the original argument tokens
`"Ashutosh"` and `" Bhadoria"`: the second piece has lost its leading
space, which was consumed as the delimiter. -/
theorem addCombinable_split_roundtrip_cex :
    jsSplit (addCombinable (Combinable.str "Ashutosh")
        (Combinable.str " Bhadoria")).toStr ' '
      ≠ ["Ashutosh", " Bhadoria"] := by decide

/-- C2 (amended): `addCombinable("Ashutosh", " Bhadoria")` evaluates to
the string `"Ashutosh Bhadoria"`, and splitting it on the space delimiter
yields the two tokens `"Ashutosh"` and `"Bhadoria"` — the first argument
exactly, and the second argument with its leading space (consumed as the
delimiter) removed. -/
theorem addCombinable_split_roundtrip :
    result = Combinable.str "Ashutosh Bhadoria"
    ∧ firstLast = ["Ashutosh", "Bhadoria"]
    ∧ " Bhadoria" = " " ++ "Bhadoria" := by decide

/-- C3: on any record whose discriminant is neither `"animal"` nor
`"bird"`, the `switch` in `moveFauna` falls through with `speed` never
assigned, and the printed line reports the speed as `undefined` — no
exception, no error result. -/
theorem moveFauna_unknown_tag (r : FaunaRec)
    (h1 : r.type ≠ "animal") (h2 : r.type ≠ "bird") :
    moveFaunaSpeed r = none
    ∧ moveFauna r = ["The speed of the fauna is undefined"] := by
  simp [moveFaunaSpeed, moveFauna, moveFaunaRun, consoleLog, jsShowOptInt,
    h1, h2]

/-- Witness for C3: a `"fish"`-tagged record is outside both known tags
and prints the undefined-speed line. -/
theorem moveFauna_unknown_tag_witness :
    (FaunaRec.mk "fish" (some 5) none).type ≠ "animal"
    ∧ (FaunaRec.mk "fish" (some 5) none).type ≠ "bird"
    ∧ (moveFaunaSpeed (FaunaRec.mk "fish" (some 5) none) = none
      ∧ moveFauna (FaunaRec.mk "fish" (some 5) none)
          = ["The speed of the fauna is undefined"]) :=
  ⟨by decide, by decide,
    moveFauna_unknown_tag (FaunaRec.mk "fish" (some 5) none)
      (by decide) (by decide)⟩

/-- C4: `addCombinable` and `add` are runtime-equivalent — they return
the same value on every pair of `Combinable` inputs (the overload
signatures change only the statically declared result type). -/
theorem addCombinable_eq_add :
    ∀ a b : Combinable, addCombinable a b = add a b := by
  intro a b
  cases a <;> cases b <;> rfl

/-- C5: `printEmployeeInformation` always prints the name line; its
output contains a `Start Date: `-tagged line exactly when the
`startDate` property is present, and a `Privileges: `-tagged line
exactly when the `privileges` property is present; a record carrying
both properties gets both lines. -/
theorem printEmployeeInformation_lines (e : UnknownEmployee) :
    ("Name: " ++ e.name) ∈ printEmployeeInformation e
    ∧ hasTaggedLine (printEmployeeInformation e) "Start Date: "
        = e.startDate.isSome
    ∧ hasTaggedLine (printEmployeeInformation e) "Privileges: "
        = e.privileges.isSome
    ∧ (e.startDate.isSome = true → e.privileges.isSome = true →
        hasTaggedLine (printEmployeeInformation e) "Start Date: " = true
        ∧ hasTaggedLine (printEmployeeInformation e) "Privileges: " = true) := by
  obtain ⟨nm, sd, pv⟩ := e
  cases sd <;> cases pv <;>
    simp [printEmployeeInformation, printEmployeeInformationRun, consoleLog,
      hasTaggedLine, header_not_startDate, header_not_privileges,
      nameLine_not_startDate, nameLine_not_privileges,
      privLine_not_startDate, startLine_not_privileges,
      startsWithTag_append_self]

/-- Witness for C5: a record carrying both `startDate` and `privileges`
prints the name line and both tagged lines. -/
theorem printEmployeeInformation_lines_witness :
    ("Name: " ++ (UnknownEmployee.mk "Ashutosh" (some ⟨"D"⟩)
        (some ["drop-tables"])).name)
      ∈ printEmployeeInformation
          (UnknownEmployee.mk "Ashutosh" (some ⟨"D"⟩) (some ["drop-tables"]))
    ∧ (hasTaggedLine (printEmployeeInformation
          (UnknownEmployee.mk "Ashutosh" (some ⟨"D"⟩) (some ["drop-tables"])))
        "Start Date: " = true
      ∧ hasTaggedLine (printEmployeeInformation
          (UnknownEmployee.mk "Ashutosh" (some ⟨"D"⟩) (some ["drop-tables"])))
        "Privileges: " = true) :=
  ⟨(printEmployeeInformation_lines
      (UnknownEmployee.mk "Ashutosh" (some ⟨"D"⟩) (some ["drop-tables"]))).1,
    (printEmployeeInformation_lines
      (UnknownEmployee.mk "Ashutosh" (some ⟨"D"⟩) (some ["drop-tables"]))).2.2.2
      (by decide) (by decide)⟩

/-- C6: `operateVehicle` always invokes `drive()`; it invokes
`loadCargo` with the fixed weight 420 exactly when the argument is the
`Truck` variant (checked by runtime type identity); on a `Car` only
`drive()` is invoked, and no other weight is ever passed to
`loadCargo`. -/
theorem operateVehicle_calls_spec (v : Vehicle) :
    VehicleEvent.driveCall ∈ operateVehicleCalls v
    ∧ (VehicleEvent.loadCargoCall 420 ∈ operateVehicleCalls v
        ↔ v = Vehicle.truck)
    ∧ (v = Vehicle.car → operateVehicleCalls v = [VehicleEvent.driveCall])
    ∧ (∀ w : Int, VehicleEvent.loadCargoCall w ∈ operateVehicleCalls v
        → w = 420) := by
  cases v <;> simp [operateVehicleCalls]

/-- Witness for C6: on a `Car` only `drive()` is invoked; on a `Truck`,
`loadCargo(420)` is invoked as well. -/
theorem operateVehicle_calls_spec_witness :
    (VehicleEvent.driveCall ∈ operateVehicleCalls Vehicle.car
      ∧ operateVehicleCalls Vehicle.car = [VehicleEvent.driveCall])
    ∧ VehicleEvent.loadCargoCall 420 ∈ operateVehicleCalls Vehicle.truck :=
  ⟨⟨(operateVehicle_calls_spec Vehicle.car).1,
      (operateVehicle_calls_spec Vehicle.car).2.2.1 rfl⟩,
    ((operateVehicle_calls_spec Vehicle.truck).2.1).mpr rfl⟩

/-- C7: on a record with a legal discriminant, `moveFauna` selects the
speed attribute matching the tag and prints it: any `"animal"` record
reports its `runningSpeed`, any `"bird"` record reports its
`flyingSpeed`; in particular `horse` reports 20 and `sparrow` reports
10. -/
theorem moveFauna_legal_tags :
    (∀ n : Int,
      moveFauna (FaunaRec.mk "animal" (some n) none)
        = ["The speed of the fauna is " ++ toString n])
    ∧ (∀ n : Int,
      moveFauna (FaunaRec.mk "bird" none (some n))
        = ["The speed of the fauna is " ++ toString n])
    ∧ moveFauna horse = ["The speed of the fauna is 20"]
    ∧ moveFauna sparrow = ["The speed of the fauna is 10"] := by
  refine ⟨fun n => ?_, fun n => ?_, by decide, by decide⟩ <;>
    simp [moveFauna, moveFaunaRun, moveFaunaSpeed, consoleLog, jsShowOptInt]

/-- C8: every dispatch function is deterministic and stateless: with the
console state threaded explicitly, a second call with the same input
appends exactly the same lines as the first (whatever was on the console
before), and the pure value returned by `add`/`addCombinable` is the
same on both calls, with the console untouched. -/
theorem dispatch_stateless :
    (∀ (st : List String) (e : UnknownEmployee),
        (printEmployeeInformationRun (printEmployeeInformationRun st e).1 e).1
          = st ++ printEmployeeInformation e ++ printEmployeeInformation e)
    ∧ (∀ (st : List String) (v : Vehicle),
        (operateVehicleRun (operateVehicleRun st v).1 v).1
          = st ++ operateVehicle v ++ operateVehicle v)
    ∧ (∀ (st : List String) (f : FaunaRec),
        (moveFaunaRun (moveFaunaRun st f).1 f).1
          = st ++ moveFauna f ++ moveFauna f)
    ∧ (∀ (st : List String) (a b : Combinable),
        (addRun st a b).1 = st
        ∧ (addRun (addRun st a b).1 a b).2 = (addRun st a b).2)
    ∧ (∀ (st : List String) (a b : Combinable),
        (addCombinableRun st a b).1 = st
        ∧ (addCombinableRun (addCombinableRun st a b).1 a b).2
            = (addCombinableRun st a b).2) := by
  refine ⟨fun st e => ?_, fun st v => ?_, fun st f => ?_,
    fun st a b => ⟨rfl, rfl⟩, fun st a b => ⟨rfl, rfl⟩⟩
  · rw [printEmployeeInformationRun_fst, printEmployeeInformationRun_fst,
      List.append_assoc]
  · rw [operateVehicleRun_fst, operateVehicleRun_fst, List.append_assoc]
  · rw [moveFaunaRun_fst, moveFaunaRun_fst, List.append_assoc]

/-- C9: every function is total over its documented input domain and no
failure result exists: on the closed `Fauna` union the `switch` always
assigns `speed`; `printEmployeeInformation` always reaches its header
and name lines; `operateVehicle` always invokes `drive()`; and `add`
reaches one of its two defined return values on every `Combinable`
pair. -/
theorem dispatch_total :
    (∀ f : Fauna, (moveFaunaSpeed f.toRec).isSome = true)
    ∧ (∀ e : UnknownEmployee,
        "EMPLOYEE DETAILS:" ∈ printEmployeeInformation e
        ∧ ("Name: " ++ e.name) ∈ printEmployeeInformation e)
    ∧ (∀ v : Vehicle, VehicleEvent.driveCall ∈ operateVehicleCalls v)
    ∧ (∀ a b : Combinable,
        add a b = Combinable.str (a.toStr ++ b.toStr)
        ∨ ∃ x y : Int, a = Combinable.num x ∧ b = Combinable.num y
            ∧ add a b = Combinable.num (x + y)) := by
  refine ⟨fun f => ?_, fun e => ?_, fun v => ?_, fun a b => ?_⟩
  · cases f <;> simp [Fauna.toRec, moveFaunaSpeed]
  · obtain ⟨nm, sd, pv⟩ := e
    cases sd <;> cases pv <;>
      simp [printEmployeeInformation, printEmployeeInformationRun, consoleLog]
  · cases v <;> simp [operateVehicleCalls]
  · cases a <;> cases b <;> simp [add]

/-- C10: no dispatch function mutates its input record: with the state
threaded explicitly, the record coming out of each call is the record
that went in, whatever the console held. -/
theorem dispatch_no_mutation :
    (∀ (st : List String) (e : UnknownEmployee),
        (printEmployeeInformationRun st e).2 = e)
    ∧ (∀ (st : List String) (v : Vehicle), (operateVehicleRun st v).2 = v)
    ∧ (∀ (st : List String) (f : FaunaRec), (moveFaunaRun st f).2 = f) :=
  ⟨fun _ _ => rfl, fun _ _ => rfl, fun _ _ => rfl⟩

end AdvancedTypes

